import Mathlib

/-!
Shallow embedding of the leptosfmt CLI orchestration core
(`src/cli/src/main.rs`): config discovery, settings resolution, input
expansion, batch dispatch and result reporting.

External collaborators (the formatter engine `format_file`, the glob
library, the filesystem and the toml deserializer) are passed in as
explicit oracles / result values, so every path through `main.rs` is a
pure Lean function of those inputs.
-/

namespace Leptosfmt

/-- Modelled from the spec: `FormatterSettings` lives in the external
`leptosfmt_formatter` crate (not under `src/`).  Per the spec it is an
immutable value with named numeric fields (maximum line width,
spaces-per-indent) plus engine-specific fields opaque to the core; the
opaque part is modelled by one stand-in numeric field. -/
structure FormatterSettings where
  max_width : Nat
  tab_spaces : Nat
  engine_field : Nat
  deriving DecidableEq, Repr

/-- Modelled from the spec: the built-in default `Settings` value
(`FormatterSettings::default()` of the external crate).  The concrete
numbers are immaterial to every claim below. -/
def FormatterSettings.default : FormatterSettings :=
  { max_width := 100, tab_spaces := 4, engine_field := 0 }

/-- Command-line arguments (struct `Args` of `main.rs`).  A config-file
path is a list of segments, innermost segment first (the representation
used by `find_config` below). -/
structure Args where
  input_pattern : String
  max_width : Option Nat
  tab_spaces : Option Nat
  config_file : Option (List String)

/-! ## ConfigDiscovery: `find_config` (main.rs lines 100-116)

A directory is a list of path segments, innermost first; `[]` is the
filesystem root.  The parent of `seg :: rest` is `rest`.  The oracle
`isFile p` answers the `path.is_file()` test for the full candidate path
`p` (also innermost-first).  The source loop pushes `leptosfmt.toml`,
tests `is_file`, and pops twice; the second `pop` fails exactly at the
root, so the root directory is itself checked before the loop breaks
with `None`.  The pair returned here is (result, number of `is_file`
checks performed). -/

def find_config_run (isFile : List String → Bool) : List String → Option (List String) × Nat
  | [] =>
    if isFile ["leptosfmt.toml"] then (some ["leptosfmt.toml"], 1) else (none, 1)
  | seg :: parent =>
    let candidate := "leptosfmt.toml" :: seg :: parent
    if isFile candidate then (some candidate, 1)
    else
      let rec_result := find_config_run isFile parent
      (rec_result.1, rec_result.2 + 1)

/-- The `Option` result of the discovery walk, as `find_config` returns it. -/
def find_config (isFile : List String → Bool) (dir : List String) : Option (List String) :=
  (find_config_run isFile dir).1

/-- How many `is_file` candidate checks the discovery walk performs. -/
def find_config_checks (isFile : List String → Bool) (dir : List String) : Nat :=
  (find_config_run isFile dir).2

/-! ## ConfigResolver: `settings` (main.rs lines 81-98) -/

/-- The config path used by `settings`:
`args.config_file.clone().or_else(find_config)`.  `or_else` evaluates its
closure only when the explicit path is absent, which the `match` mirrors:
`discover` is applied only in the `none` branch. -/
def configPathOf (explicit : Option (List String))
    (discover : Unit → Option (List String)) : Option (List String) :=
  match explicit with
  | some p => some p
  | none => discover ()

/-- The base settings of `settings` before per-field overrides:
`fs::read_to_string(config_file).map(|s| toml::from_str(&s))??` when a
config path resolves (read error fatal via the first `?`, deserialize
error fatal via the second), `FormatterSettings::default()` otherwise.
`readToString` and `tomlFromStr` are the filesystem and toml oracles. -/
def baseSettings (args : Args) (discover : Unit → Option (List String))
    (readToString : List String → Except String String)
    (tomlFromStr : String → Except String FormatterSettings) :
    Except String FormatterSettings :=
  match configPathOf args.config_file discover with
  | some p =>
    match readToString p with
    | .error e => .error e
    | .ok s => tomlFromStr s
  | none => .ok FormatterSettings.default

/-- The two per-field override blocks of `settings` (main.rs lines
89-95): each present flag overwrites exactly its own field of the
mutable `settings` value. -/
def applyOverrides (args : Args) (s : FormatterSettings) : FormatterSettings :=
  let s1 := match args.max_width with
    | some w => { s with max_width := w }
    | none => s
  match args.tab_spaces with
  | some t => { s1 with tab_spaces := t }
  | none => s1

/-- The whole `settings` function: base value from config or defaults,
then the overrides, then `Ok(settings)`. -/
def settings (args : Args) (discover : Unit → Option (List String))
    (readToString : List String → Except String String)
    (tomlFromStr : String → Except String FormatterSettings) :
    Except String FormatterSettings :=
  (baseSettings args discover readToString tomlFromStr).map (applyOverrides args)

/-! ## FileSetExpander: the glob-pattern construction (main.rs lines 43-51) -/

/-- `fs::metadata(&args.input_pattern).map(|meta| meta.is_dir()).unwrap_or(false)`:
the metadata oracle yields either `is_dir` or an IO error, and an error
is collapsed to `false`. -/
def is_dir_of (metadata : Except String Bool) : Bool :=
  match metadata with
  | .ok b => b
  | .error _ => false

/-- The glob pattern handed to the glob library: a directory input is
rewritten to `dir/**/*.rs`, anything else is passed through verbatim. -/
def globPattern (input : String) (metadata : Except String Bool) : String :=
  if is_dir_of metadata then input ++ "/**/*.rs" else input

/-- Modelled from the spec: whether a file name carries the source-file
extension `.rs` (the `*.rs` part of the rewritten pattern; the glob
library itself is not under `src/`). -/
def endsWithRs (name : String) : Bool :=
  ['.', 'r', 's'].isSuffixOf name.data

/-- Modelled from the spec: the glob library's evaluation of the
rewritten `dir/**/*.rs` pattern — a "recursive wildcard matching the
source file extension" matches every file strictly under `dir`, at any
nesting depth, whose name ends in `.rs`.  Paths are segment lists,
outermost first. -/
def matchesRecursiveRs (dir file : List String) : Bool :=
  dir.isPrefixOf file &&
    (match file.getLast? with
     | some name => endsWithRs name
     | none => false)

/-! ## BatchExecutor and engine boundary (main.rs lines 57-78, 118-123) -/

/-- A Rust panic payload (`Box<dyn Any + Send>`).  The payloads
distinguished by `e.downcast::<String>()` in `format_glob_result`:
a `String`, a `&'static str`, or anything else. -/
inductive PanicPayload
  | string (s : String)
  | str (s : String)
  | other
  deriving DecidableEq, Repr

/-- Modelled from the spec: the outcome of one invocation of the
external engine `format_file(path, settings)` (crate
`leptosfmt_formatter`, not under `src/`) — formatted text, a structured
error, or abnormal termination with some panic payload. -/
inductive EngineResult
  | ok (text : String)
  | err (msg : String)
  | panicked (p : PanicPayload)
  deriving DecidableEq, Repr

/-- The external collaborators one formatting task touches: the engine
and `fs::write`.  Both are deterministic oracles of the task's inputs. -/
structure Oracles where
  format_file : String → FormatterSettings → EngineResult
  write : String → String → Except String Unit

/-- What one task produces: a returned `Ok`, a returned `Err` (with the
message that will be printed), or an abnormal termination of the task
itself. -/
inductive TaskOutcome
  | success
  | failure (msg : String)
  | panicOut
  deriving DecidableEq, Repr

/-- `format_glob_result` (main.rs lines 118-123).
`panic::catch_unwind(|| format_file(file, settings))` turns an engine
panic into `Err(payload)`; the `map_err` closure then runs
`payload.downcast::<String>().unwrap()`: a `String` payload becomes the
anyhow error message, while for any other payload `downcast` returns
`Err` and `unwrap` panics — the task itself terminates abnormally
(`panicOut`).  On engine success, `fs::write` is attempted and its error
is the task's `Err`. -/
def format_glob_result (o : Oracles) (file : String) (s : FormatterSettings) :
    TaskOutcome :=
  match o.format_file file s with
  | .ok text =>
    match o.write file text with
    | .ok _ => .success
    | .error msg => .failure msg
  | .err msg => .failure msg
  | .panicked p =>
    match p with
    | .string msg => .failure msg
    | _ => .panicOut

/-- One entry of the glob iterator: a matched path, or a per-entry
enumeration error (`GlobError`, carrying the path and the IO error). -/
inductive GlobEntry
  | ok (path : String)
  | err (path : String) (msg : String)
  deriving DecidableEq, Repr

/-- One per-file status line of the reporter: `✅ path`, or `❌ path`
followed by the diagnostic message. -/
inductive Line
  | success (path : String)
  | failure (path : String) (msg : String)
  deriving DecidableEq, Repr

/-- The body of the `for_each` closure (main.rs lines 59-72) for one
entry: an enumeration-error entry is printed as a failure directly
(without consulting the engine); a path entry runs `format_glob_result`.
`none` means the task terminated abnormally and printed no line. -/
def processEntry (o : Oracles) (s : FormatterSettings) : GlobEntry → Option Line
  | .ok path =>
    match format_glob_result o path s with
    | .success => some (.success path)
    | .failure msg => some (.failure path msg)
    | .panicOut => none
  | .err path msg => some (.failure path msg)

/-- Whether the engine invocation for an entry terminates abnormally
(only path entries invoke the engine at all). -/
def enginePanics (o : Oracles) (s : FormatterSettings) : GlobEntry → Bool
  | .ok path =>
    match o.format_file path s with
    | .panicked _ => true
    | _ => false
  | .err _ _ => false

/-- Whether an entry's task completes with a failure line. -/
def entryFails (o : Oracles) (s : FormatterSettings) (e : GlobEntry) : Bool :=
  match processEntry o s e with
  | some (.failure _ _) => true
  | _ => false

/-- Whether a line is a failure line. -/
def isFailureLine : Line → Bool
  | .failure _ _ => true
  | .success _ => false

/-- The observable outcome of `main` after argument parsing:
`fatalSettings` — `settings` returned `Err`, the error was printed and
`main` returned before touching the glob, the files or the summary;
`fatalGlob` — `glob(...)` rejected the pattern and `.expect` aborted
before any dispatch;
`panickedRun` — some task terminated abnormally, rayon re-raised the
panic out of `for_each`, and `main` unwound before the summary line;
`done` — every task completed, one line per entry was printed (in some
completion order) and the summary was printed with the candidate count. -/
inductive RunOutput
  | fatalSettings (msg : String)
  | fatalGlob (msg : String)
  | panickedRun (total : Nat)
  | done (lines : List Line) (total : Nat)
  deriving DecidableEq, Repr

/-- `main` after settings resolution (main.rs lines 35-78), as a function
of the settings result, the glob library's answer for the pattern, and
the task oracles. -/
def run (settingsRes : Except String FormatterSettings)
    (globRes : Except String (List GlobEntry)) (o : Oracles) : RunOutput :=
  match settingsRes with
  | .error msg => .fatalSettings msg
  | .ok s =>
    match globRes with
    | .error msg => .fatalGlob msg
    | .ok entries =>
      if entries.all (fun e => (processEntry o s e).isSome) then
        .done (entries.filterMap (processEntry o s)) entries.length
      else
        .panickedRun entries.length

/-- The summary line (`Formatted N files in t ms`), when printed: its
file count. -/
def summaryPrinted : RunOutput → Option Nat
  | .done _ n => some n
  | _ => none

/-- The whole of `main` after argument parsing: settings resolution,
directory detection, pattern construction, glob evaluation, dispatch. -/
def mainRun (args : Args) (discover : Unit → Option (List String))
    (readToString : List String → Except String String)
    (tomlFromStr : String → Except String FormatterSettings)
    (metadata : Except String Bool)
    (globEval : String → Except String (List GlobEntry))
    (o : Oracles) : RunOutput :=
  run (settings args discover readToString tomlFromStr)
    (globEval (globPattern args.input_pattern metadata)) o

/-! ## ResultReporter trace (main.rs lines 59-78)

The printed output as an ordered event list.  `sched` is the
nondeterministic completion order rayon produces: a permutation of the
entries when every task completes, an arbitrary interleaving prefix
otherwise.  `for_each` blocks until all its tasks are finished, and only
the statement after it prints the summary, so the summary event is
appended strictly after every line event — and only in the
all-tasks-completed case. -/

/-- One printed event: a per-file status line, or the final summary. -/
inductive Event
  | line (l : Line)
  | summary (n : Nat)
  deriving DecidableEq, Repr

/-- Whether an event is a per-file line. -/
def isLineEvent : Event → Bool
  | .line _ => true
  | .summary _ => false

/-- The ordered list of printed events for a run whose tasks complete in
the order `sched`. -/
def runTrace (settingsRes : Except String FormatterSettings)
    (globRes : Except String (List GlobEntry)) (o : Oracles)
    (sched : List GlobEntry) : List Event :=
  match settingsRes with
  | .error _ => []
  | .ok s =>
    match globRes with
    | .error _ => []
    | .ok entries =>
      let lines := sched.filterMap (fun e => (processEntry o s e).map Event.line)
      if entries.all (fun e => (processEntry o s e).isSome) then
        lines ++ [.summary entries.length]
      else
        lines

/-! ## Helper lemmas -/

theorem processEntry_isSome_of_not_panics (o : Oracles) (s : FormatterSettings)
    (e : GlobEntry) (h : enginePanics o s e = false) :
    (processEntry o s e).isSome = true := by
  cases e with
  | ok path =>
    cases hf : o.format_file path s with
    | ok text =>
      cases hw : o.write path text <;>
        simp [processEntry, format_glob_result, hf, hw]
    | err msg => simp [processEntry, format_glob_result, hf]
    | panicked p =>
      exfalso
      have htrue : enginePanics o s (.ok path) = true := by
        simp [enginePanics, hf]
      rw [h] at htrue
      exact Bool.false_ne_true htrue
  | err path msg => simp [processEntry]

theorem entryFails_eq_isFailureLine (o : Oracles) (s : FormatterSettings)
    (e : GlobEntry) (l : Line) (hp : processEntry o s e = some l) :
    entryFails o s e = isFailureLine l := by
  unfold entryFails
  rw [hp]
  cases l <;> rfl

theorem length_filterMap_of_isSome {α β : Type} (f : α → Option β) :
    ∀ l : List α, (∀ e ∈ l, (f e).isSome = true) →
      (l.filterMap f).length = l.length := by
  intro l
  induction l with
  | nil => intro _; rfl
  | cons e rest ih =>
    intro h
    obtain ⟨line, hline⟩ := Option.isSome_iff_exists.mp (h e (List.mem_cons_self e rest))
    rw [List.filterMap_cons, hline]
    simp only [List.length_cons]
    rw [ih (fun x hx => h x (List.mem_cons_of_mem e hx))]

theorem countP_filterMap_failures (o : Oracles) (s : FormatterSettings) :
    ∀ l : List GlobEntry, (∀ e ∈ l, (processEntry o s e).isSome = true) →
      (l.filterMap (processEntry o s)).countP isFailureLine =
        l.countP (entryFails o s) := by
  intro l
  induction l with
  | nil => intro _; rfl
  | cons e rest ih =>
    intro h
    obtain ⟨line, hline⟩ :=
      Option.isSome_iff_exists.mp (h e (List.mem_cons_self e rest))
    rw [List.filterMap_cons, hline, List.countP_cons, List.countP_cons,
      ih (fun x hx => h x (List.mem_cons_of_mem e hx)),
      entryFails_eq_isFailureLine o s e line hline]

theorem all_isLineEvent_filterMap (o : Oracles) (s : FormatterSettings) :
    ∀ l : List GlobEntry,
      (l.filterMap (fun e => (processEntry o s e).map Event.line)).all
        isLineEvent = true := by
  intro l
  induction l with
  | nil => rfl
  | cons e rest ih =>
    rw [List.filterMap_cons]
    cases hp : processEntry o s e with
    | none => simpa using ih
    | some line => simpa [isLineEvent] using ih

theorem isPrefixOf_self_append (l₁ l₂ : List String) :
    l₁.isPrefixOf (l₁ ++ l₂) = true :=
  List.isPrefixOf_iff_prefix.mpr (List.prefix_append l₁ l₂)

/-! ## Claim theorems -/

/-- C2: starting from a working directory at depth D with no ancestor
directory (the starting directory and the root included) containing a
file named `leptosfmt.toml` as a direct child, `find_config` returns
`none` after exactly D + 1 candidate `is_file` checks — in particular
the walk-up terminates cleanly at the filesystem root.  Ancestors of a
directory, in the innermost-first segment representation, are exactly
its suffixes. -/
theorem find_config_not_found_terminates (isFile : List String → Bool)
    (dir : List String)
    (h : ∀ a : List String, a <:+ dir → isFile ("leptosfmt.toml" :: a) = false) :
    find_config isFile dir = none ∧
      find_config_checks isFile dir = dir.length + 1 := by
  induction dir with
  | nil =>
    have h0 := h [] List.nil_suffix
    simp [find_config, find_config_checks, find_config_run, h0]
  | cons seg parent ih =>
    have hc := h (seg :: parent) (List.suffix_refl _)
    have ih' := ih (fun a ha => h a (ha.trans (List.suffix_cons seg parent)))
    unfold find_config find_config_checks at ih' ⊢
    simp only [find_config_run]
    rw [if_neg (show ¬isFile ("leptosfmt.toml" :: seg :: parent) = true from by
      rw [hc]; exact Bool.false_ne_true)]
    exact ⟨ih'.1, by rw [List.length_cons, ih'.2]⟩

/-- Witness for C2: a depth-3 directory with no config anywhere yields
`none` after exactly 4 checks. -/
theorem find_config_not_found_terminates_witness :
    find_config (fun _ => false) ["src", "proj", "home"] = none ∧
      find_config_checks (fun _ => false) ["src", "proj", "home"] = 4 := by
  simpa using
    find_config_not_found_terminates (fun _ => false) ["src", "proj", "home"]
      (fun _ _ => rfl)

/-- C4: when an explicit `--config-file` path is supplied, settings
resolution uses exactly that path, and discovery is never attempted: the
result of `settings` does not depend on the discovery function at all. -/
theorem explicit_config_skips_discovery (args : Args) (p : List String)
    (d d' : Unit → Option (List String))
    (readToString : List String → Except String String)
    (tomlFromStr : String → Except String FormatterSettings)
    (h : args.config_file = some p) :
    configPathOf args.config_file d = some p ∧
      settings args d readToString tomlFromStr =
        settings args d' readToString tomlFromStr := by
  constructor
  · simp [configPathOf, h]
  · simp [settings, baseSettings, configPathOf, h]

/-- Witness for C4: with an explicit path `["cfg"]`, two discovery
functions with different answers give the same resolved settings. -/
theorem explicit_config_skips_discovery_witness :
    configPathOf (Args.mk "in" none none (some ["cfg"])).config_file
        (fun _ => some ["found"]) = some ["cfg"] ∧
      settings (Args.mk "in" none none (some ["cfg"])) (fun _ => some ["found"])
          (fun _ => Except.ok "") (fun _ => Except.ok FormatterSettings.default) =
        settings (Args.mk "in" none none (some ["cfg"])) (fun _ => none)
          (fun _ => Except.ok "") (fun _ => Except.ok FormatterSettings.default) :=
  explicit_config_skips_discovery _ ["cfg"] _ _ _ _ rfl

/-- C5: whatever base `Settings` value steps 1-3 produced (explicit
config, discovered config, or defaults), each explicitly supplied
per-field override replaces exactly its own field and nothing else, and
resolution still succeeds (overrides never fail): a supplied
`--max-width` makes `max_width` the flag value while an absent one
leaves it at the base value, symmetrically for `--tab-spaces`, and the
engine-specific field is always untouched. -/
theorem overrides_replace_field (args : Args)
    (discover : Unit → Option (List String))
    (readToString : List String → Except String String)
    (tomlFromStr : String → Except String FormatterSettings)
    (b : FormatterSettings)
    (hb : baseSettings args discover readToString tomlFromStr = .ok b) :
    settings args discover readToString tomlFromStr =
        .ok (applyOverrides args b) ∧
      (applyOverrides args b).engine_field = b.engine_field ∧
      (∀ w, args.max_width = some w → (applyOverrides args b).max_width = w) ∧
      (args.max_width = none → (applyOverrides args b).max_width = b.max_width) ∧
      (∀ t, args.tab_spaces = some t → (applyOverrides args b).tab_spaces = t) ∧
      (args.tab_spaces = none → (applyOverrides args b).tab_spaces = b.tab_spaces) := by
  refine ⟨?_, ?_, ?_, ?_, ?_, ?_⟩
  · simp [settings, hb, Except.map]
  · cases hw : args.max_width <;> cases ht : args.tab_spaces <;>
      simp [applyOverrides, hw, ht]
  · intro w hw; cases ht : args.tab_spaces <;> simp [applyOverrides, hw, ht]
  · intro hw; cases ht : args.tab_spaces <;> simp [applyOverrides, hw, ht]
  · intro t ht; cases hw : args.max_width <;> simp [applyOverrides, hw, ht]
  · intro ht; cases hw : args.max_width <;> simp [applyOverrides, hw, ht]

/-- Witness for C5: against a config file giving width 80, a
`--max-width 100`-only invocation resolves to width 100 with
`tab_spaces` kept, and a `--tab-spaces 2`-only invocation resolves to
`tab_spaces` 2 with width 80 kept; the opaque field survives both. -/
theorem overrides_replace_field_witness :
    settings (Args.mk "src" (some 100) none (some ["leptosfmt.toml"]))
        (fun _ => none) (fun _ => Except.ok "max_width = 80")
        (fun _ => Except.ok (FormatterSettings.mk 80 4 7)) =
      .ok (FormatterSettings.mk 100 4 7) ∧
    settings (Args.mk "src" none (some 2) (some ["leptosfmt.toml"]))
        (fun _ => none) (fun _ => Except.ok "max_width = 80")
        (fun _ => Except.ok (FormatterSettings.mk 80 4 7)) =
      .ok (FormatterSettings.mk 80 2 7) :=
  ⟨(overrides_replace_field (Args.mk "src" (some 100) none (some ["leptosfmt.toml"]))
      (fun _ => none) (fun _ => Except.ok "max_width = 80")
      (fun _ => Except.ok (FormatterSettings.mk 80 4 7))
      (FormatterSettings.mk 80 4 7) rfl).1,
    (overrides_replace_field (Args.mk "src" none (some 2) (some ["leptosfmt.toml"]))
      (fun _ => none) (fun _ => Except.ok "max_width = 80")
      (fun _ => Except.ok (FormatterSettings.mk 80 4 7))
      (FormatterSettings.mk 80 4 7) rfl).1⟩

/-- C6: an input naming an existing directory is rewritten to
`dir/**/*.rs` before glob evaluation, and the recursive-wildcard
pattern (spec-modelled glob semantics) matches a source file nested
arbitrarily deep below the directory; an input that is not an existing
directory is evaluated verbatim as a glob pattern. -/
theorem directory_expansion_recursive (input e : String)
    (dir rest : List String) (name : String)
    (h : endsWithRs name = true) :
    globPattern input (.ok true) = input ++ "/**/*.rs" ∧
      globPattern input (.ok false) = input ∧
      globPattern input (.error e) = input ∧
      matchesRecursiveRs dir (dir ++ (rest ++ [name])) = true := by
  refine ⟨rfl, rfl, rfl, ?_⟩
  unfold matchesRecursiveRs
  rw [← List.append_assoc, List.getLast?_concat, List.append_assoc,
    isPrefixOf_self_append]
  simpa using h

/-- Witness for C6: directory `proj`, file `proj/a/b/deep.rs` three
levels deep is matched by the rewritten pattern. -/
theorem directory_expansion_recursive_witness :
    globPattern "proj" (.ok true) = "proj/**/*.rs" ∧
      globPattern "proj" (.ok false) = "proj" ∧
      globPattern "proj" (.error "io") = "proj" ∧
      matchesRecursiveRs ["proj"] (["proj"] ++ (["a", "b"] ++ ["deep.rs"])) = true :=
  directory_expansion_recursive "proj" "io" ["proj"] ["a", "b"] "deep.rs" (by decide)

/-- C9: an entry that is itself an enumeration error from glob expansion
is recorded directly as a failure line for its path, and the formatting
engine (and the write-back) are never invoked: the outcome is the same
under every oracle and every settings value. -/
theorem enumeration_error_direct_failure (o o' : Oracles)
    (s s' : FormatterSettings) (path msg : String) :
    processEntry o s (.err path msg) = some (.failure path msg) ∧
      processEntry o s (.err path msg) = processEntry o' s' (.err path msg) :=
  ⟨rfl, rfl⟩

/-- C10: a metadata read failure on the input (for example a
non-existent path) is collapsed to `is_dir = false`: the input is passed
verbatim to glob evaluation, and the whole run behaves exactly as for a
non-directory input — no fatal error and no diagnostic arise from the
metadata failure itself. -/
theorem metadata_error_treated_as_non_directory (input errm err2 : String)
    (args : Args) (discover : Unit → Option (List String))
    (readToString : List String → Except String String)
    (tomlFromStr : String → Except String FormatterSettings)
    (globEval : String → Except String (List GlobEntry)) (o : Oracles) :
    globPattern input (.error errm) = input ∧
      mainRun args discover readToString tomlFromStr (.error err2) globEval o =
        mainRun args discover readToString tomlFromStr (.ok false) globEval o :=
  ⟨rfl, rfl⟩

/-- C7: for a candidate set of size N every entry of which either
succeeds or fails via a structured error (engine error, enumeration
error, or write-back error — i.e. no engine invocation terminates
abnormally), the run completes, exactly one line per candidate is
printed (N lines), exactly K of them are failure lines where K is the
number of failing entries, and the summary count equals N. -/
theorem reporter_counts (s : FormatterSettings) (entries : List GlobEntry)
    (o : Oracles)
    (h : entries.all (fun e => !enginePanics o s e) = true) :
    run (.ok s) (.ok entries) o =
        .done (entries.filterMap (processEntry o s)) entries.length ∧
      (entries.filterMap (processEntry o s)).length = entries.length ∧
      (entries.filterMap (processEntry o s)).countP isFailureLine =
        entries.countP (entryFails o s) ∧
      summaryPrinted (run (.ok s) (.ok entries) o) = some entries.length := by
  have hsome : ∀ e ∈ entries, (processEntry o s e).isSome = true := by
    intro e he
    have := List.all_eq_true.mp h e he
    exact processEntry_isSome_of_not_panics o s e (by
      cases hb : enginePanics o s e
      · rfl
      · rw [hb] at this; exact absurd this (by simp))
  have hall : entries.all (fun e => (processEntry o s e).isSome) = true :=
    List.all_eq_true.mpr hsome
  have hrun : run (.ok s) (.ok entries) o =
      .done (entries.filterMap (processEntry o s)) entries.length := by
    simp only [run]
    rw [if_pos hall]
  refine ⟨hrun, length_filterMap_of_isSome (processEntry o s) entries hsome,
    countP_filterMap_failures o s entries hsome, ?_⟩
  rw [hrun]
  rfl

/-- Oracle for the C7 witness: `a7.rs` formats and writes fine, `b7.rs`
gets a structured engine error, `c7.rs` formats but its write-back
fails. -/
def witnessOracleC7 : Oracles where
  format_file := fun p _ =>
    if p == "b7.rs" then .err "unexpected token" else .ok "formatted"
  write := fun p _ =>
    if p == "c7.rs" then .error "permission denied" else .ok ()

/-- Witness for C7: the spec's example scenario with N = 3 candidates of
which K = 2 fail — three per-file lines, two failure lines, summary
count 3. -/
theorem reporter_counts_witness :
    ([GlobEntry.ok "a7.rs", GlobEntry.ok "b7.rs", GlobEntry.ok "c7.rs"].all
        (fun e => !enginePanics witnessOracleC7 FormatterSettings.default e) = true) ∧
      ([GlobEntry.ok "a7.rs", GlobEntry.ok "b7.rs", GlobEntry.ok "c7.rs"].countP
        (entryFails witnessOracleC7 FormatterSettings.default) = 2) ∧
      (run (.ok FormatterSettings.default)
          (.ok [GlobEntry.ok "a7.rs", GlobEntry.ok "b7.rs", GlobEntry.ok "c7.rs"])
          witnessOracleC7 =
        .done ([GlobEntry.ok "a7.rs", GlobEntry.ok "b7.rs",
            GlobEntry.ok "c7.rs"].filterMap
          (processEntry witnessOracleC7 FormatterSettings.default)) 3 ∧
        ([GlobEntry.ok "a7.rs", GlobEntry.ok "b7.rs",
            GlobEntry.ok "c7.rs"].filterMap
          (processEntry witnessOracleC7 FormatterSettings.default)).length = 3 ∧
        ([GlobEntry.ok "a7.rs", GlobEntry.ok "b7.rs",
            GlobEntry.ok "c7.rs"].filterMap
          (processEntry witnessOracleC7 FormatterSettings.default)).countP
            isFailureLine =
          [GlobEntry.ok "a7.rs", GlobEntry.ok "b7.rs", GlobEntry.ok "c7.rs"].countP
            (entryFails witnessOracleC7 FormatterSettings.default) ∧
        summaryPrinted (run (.ok FormatterSettings.default)
          (.ok [GlobEntry.ok "a7.rs", GlobEntry.ok "b7.rs", GlobEntry.ok "c7.rs"])
          witnessOracleC7) = some 3) :=
  ⟨by decide, by decide,
    reporter_counts FormatterSettings.default
      [GlobEntry.ok "a7.rs", GlobEntry.ok "b7.rs", GlobEntry.ok "c7.rs"]
      witnessOracleC7 (by decide)⟩

/-- C8: when dispatch is reached and every task completes, then for
every completion order (any permutation of the entries) the printed
trace ends with the summary event: the summary carries the candidate
count, every event before it is a per-file line, and all N per-file
lines precede it — rayon's `for_each` joins all tasks before the
statement printing the summary runs, while the lines themselves carry no
order guarantee. -/
theorem summary_after_all_lines (s : FormatterSettings)
    (entries sched : List GlobEntry) (o : Oracles)
    (hperm : sched.Perm entries)
    (hall : entries.all (fun e => (processEntry o s e).isSome) = true) :
    (runTrace (.ok s) (.ok entries) o sched).getLast? =
        some (.summary entries.length) ∧
      (runTrace (.ok s) (.ok entries) o sched).dropLast.all isLineEvent = true ∧
      (runTrace (.ok s) (.ok entries) o sched).dropLast.length =
        entries.length := by
  have htr : runTrace (.ok s) (.ok entries) o sched =
      (sched.filterMap (fun e => (processEntry o s e).map Event.line)) ++
        [.summary entries.length] := by
    simp only [runTrace]
    rw [if_pos hall]
  have hsome : ∀ e ∈ sched,
      (Option.map Event.line (processEntry o s e)).isSome = true := by
    intro e he
    have h2 := List.all_eq_true.mp hall e (hperm.mem_iff.mp he)
    cases hp : processEntry o s e with
    | none => simp [hp] at h2
    | some l => simp [hp]
  rw [htr, List.getLast?_concat, List.dropLast_concat]
  refine ⟨rfl, all_isLineEvent_filterMap o s sched, ?_⟩
  rw [length_filterMap_of_isSome _ sched hsome]
  exact hperm.length_eq

/-- Oracle for the C8 witness: everything succeeds. -/
def witnessOracleC8 : Oracles where
  format_file := fun _ _ => .ok "formatted"
  write := fun _ _ => .ok ()

/-- Witness for C8: a two-entry batch consumed in swapped completion
order still prints the summary (count 2) last, after two line events. -/
theorem summary_after_all_lines_witness :
    ([GlobEntry.ok "b8.rs", GlobEntry.err "a8.rs" "io error"].Perm
        [GlobEntry.err "a8.rs" "io error", GlobEntry.ok "b8.rs"]) ∧
      ([GlobEntry.err "a8.rs" "io error", GlobEntry.ok "b8.rs"].all
        (fun e => (processEntry witnessOracleC8 FormatterSettings.default e).isSome) =
          true) ∧
      ((runTrace (.ok FormatterSettings.default)
          (.ok [GlobEntry.err "a8.rs" "io error", GlobEntry.ok "b8.rs"])
          witnessOracleC8
          [GlobEntry.ok "b8.rs", GlobEntry.err "a8.rs" "io error"]).getLast? =
          some (.summary 2) ∧
        (runTrace (.ok FormatterSettings.default)
          (.ok [GlobEntry.err "a8.rs" "io error", GlobEntry.ok "b8.rs"])
          witnessOracleC8
          [GlobEntry.ok "b8.rs", GlobEntry.err "a8.rs" "io error"]).dropLast.all
            isLineEvent = true ∧
        (runTrace (.ok FormatterSettings.default)
          (.ok [GlobEntry.err "a8.rs" "io error", GlobEntry.ok "b8.rs"])
          witnessOracleC8
          [GlobEntry.ok "b8.rs", GlobEntry.err "a8.rs" "io error"]).dropLast.length =
          2) :=
  ⟨List.Perm.swap _ _ _, by decide,
    summary_after_all_lines FormatterSettings.default
      [GlobEntry.err "a8.rs" "io error", GlobEntry.ok "b8.rs"]
      [GlobEntry.ok "b8.rs", GlobEntry.err "a8.rs" "io error"]
      witnessOracleC8 (List.Perm.swap _ _ _) (by decide)⟩

/-- Oracle for the C1 evaluation: `good.rs` formats and writes fine,
`cover.rs` panics with a `String` payload, `bad.rs` panics with a
`&'static str` payload. -/
def panicOracleC1 : Oracles where
  format_file := fun p _ =>
    if p == "good.rs" then .ok "formatted"
    else if p == "cover.rs" then .panicked (.string "caught msg")
    else .panicked (.str "boom")
  write := fun _ _ => .ok ()

/-- C1 fails on the code: `format_glob_result` converts an engine panic
into a `Failure` only when the payload is a `String`
(`e.downcast::<String>()` succeeds); for a `&'static str` payload the
`downcast` returns `Err` and the `.unwrap()` re-panics inside the task,
so the panic escapes the task, rayon re-raises it out of `for_each`, and
the batch aborts without the remaining outcomes or the summary.
Evaluated here at a concrete two-file batch whose second engine call
panics with payload `"boom"` as a `&'static str`. -/
theorem panic_payload_escapes :
    format_glob_result panicOracleC1 "cover.rs" FormatterSettings.default =
        .failure "caught msg" ∧
      format_glob_result panicOracleC1 "bad.rs" FormatterSettings.default =
        .panicOut ∧
      run (.ok FormatterSettings.default)
          (.ok [GlobEntry.ok "good.rs", GlobEntry.ok "bad.rs"]) panicOracleC1 =
        .panickedRun 2 ∧
      summaryPrinted (run (.ok FormatterSettings.default)
        (.ok [GlobEntry.ok "good.rs", GlobEntry.ok "bad.rs"]) panicOracleC1) =
        none := by
  refine ⟨?_, ?_, ?_, ?_⟩ <;> decide

/-- Oracle for the C3 evaluation: the single engine call panics with a
payload that is neither a `String` nor a `&str`. -/
def panicOracleC3 : Oracles where
  format_file := fun _ _ => .panicked .other
  write := fun _ _ => .ok ()

/-- C3, first halves confirmed and converse refuted on the code: a
settings resolution error (unreadable or undeserializable config) or a
glob pattern error aborts the run with the printed error before any
task runs — no oracle is consulted, so no candidate file is written and
no summary is printed.  The converse fails: at a concrete input with no
fatal error whose one engine call panics with a non-`String` payload,
the `unwrap` in `format_glob_result` re-panics, `main` unwinds out of
`for_each`, and the summary line is not printed. -/
theorem fatal_abort_and_summary :
    (∀ (m : String) (g : Except String (List GlobEntry)) (o o' : Oracles),
        run (.error m) g o = .fatalSettings m ∧
        summaryPrinted (run (.error m) g o) = none ∧
        run (.error m) g o = run (.error m) g o') ∧
      (∀ (s : FormatterSettings) (m : String) (o o' : Oracles),
        run (.ok s) (.error m) o = .fatalGlob m ∧
        summaryPrinted (run (.ok s) (.error m) o) = none ∧
        run (.ok s) (.error m) o = run (.ok s) (.error m) o') ∧
      (run (.ok FormatterSettings.default) (.ok [GlobEntry.ok "only.rs"])
          panicOracleC3 = .panickedRun 1 ∧
        summaryPrinted (run (.ok FormatterSettings.default)
          (.ok [GlobEntry.ok "only.rs"]) panicOracleC3) = none) := by
  refine ⟨fun m g o o' => ⟨rfl, rfl, rfl⟩,
    fun s m o o' => ⟨rfl, rfl, rfl⟩, ?_, ?_⟩ <;> decide

end Leptosfmt
